import Mathlib

/-!
# Expense-tracker client scripts: a shallow embedding

This file embeds the client-side page scripts of a personal-finance web
application (budgets, categories, income sources, transactions, profile,
dashboard).  Each user action in the source is a DOM read, at most one
outgoing `fetch`, and a two-branch handler over the parsed JSON response.
We model:

* form snapshots (the values the script reads from the DOM) as structures,
* the JSON payloads the scripts build as association lists of a small
  JSON-value type,
* the outgoing requests (URL, method, headers, body) as a structure,
* the response handlers as total functions from a network result
  (parsed response, or a network/JSON-parse rejection) to an outcome
  (toasts shown, page reload, listing refresh, modals hidden),
* the per-page module-level "current entity" references and the guarded
  operations that read them,
* the search-input debounce timer of the transactions page as a small
  state machine over input-event times.

Sources embedded: the budgets page script, the categories/income-sources
page script, the transactions page script (AJAX variant), and the profile
page script.
-/

namespace ExpenseTracker

/-- A small JSON value type: the payloads these scripts build contain only
strings, `null`, and arrays of strings (checkbox values). -/
inductive JVal where
  | str (s : String)
  | null
  | arr (xs : List String)
deriving DecidableEq, Repr

/-- JavaScript `a || b` on a possibly-absent string: `undefined`, `null`
and the empty string are falsy, so the default is used for them. -/
def jsOr (v : Option String) (dflt : String) : String :=
  match v with
  | none => dflt
  | some s => if s = "" then dflt else s

/-- JavaScript string coercion of a possibly-absent value in a template
literal: `undefined` renders as the string "undefined". -/
def jsCoe (v : Option String) : String :=
  v.getD "undefined"

/-- Kind of a toast notification (`showToast`'s second argument). -/
inductive ToastKind where
  | success
  | error
  | info
deriving DecidableEq, Repr

/-- A toast notification: message text and kind. -/
structure Toast where
  msg : String
  kind : ToastKind
deriving DecidableEq, Repr

/-- An outgoing HTTP request as the scripts build it with `fetch`:
URL, method, header list, and an optional JSON object body
(`JSON.stringify` of an object literal, kept structurally). -/
structure Request where
  url : String
  method : String
  headers : List (String × String)
  body : Option (List (String × JVal))
deriving DecidableEq, Repr

/-! ## Endpoint selection for the save operations

Each `saveX` function reads the hidden id field and selects the URL with
`const url = id ? update-url : create-url;` (the empty string is falsy). -/

/-- `saveBudget`: `id ? /api/budget/${id}/update/ : /api/budget/create/`. -/
def saveBudgetUrl (id : String) : String :=
  if id = "" then "/api/budget/create/"
  else "/api/budget/" ++ id ++ "/update/"

/-- `saveCategory`: `id ? /api/category/${id}/update/ : /api/category/create/`. -/
def saveCategoryUrl (id : String) : String :=
  if id = "" then "/api/category/create/"
  else "/api/category/" ++ id ++ "/update/"

/-- `saveIncomeSource`: `id ? /api/income-source/${id}/update/ : /api/income-source/create/`. -/
def saveIncomeSourceUrl (id : String) : String :=
  if id = "" then "/api/income-source/create/"
  else "/api/income-source/" ++ id ++ "/update/"

/-- `saveIncome` (transactions page):
`id ? /api/transaction/income/${id}/update/ : /api/income/create/`. -/
def saveIncomeUrl (id : String) : String :=
  if id = "" then "/api/income/create/"
  else "/api/transaction/income/" ++ id ++ "/update/"

/-- `saveExpense` (transactions page):
`id ? /api/transaction/expense/${id}/update/ : /api/expense/create/`. -/
def saveExpenseUrl (id : String) : String :=
  if id = "" then "/api/expense/create/"
  else "/api/transaction/expense/" ++ id ++ "/update/"

/-! ## The `truncateWords` helper of the transactions page -/

/-- `truncateWords(str, numWords)`: empty string for a falsy input;
the input unchanged when `str.split(' ')` has at most `numWords` entries;
otherwise the first `numWords` entries rejoined with single spaces,
followed by `"..."`. -/
def truncateWords (str : String) (numWords : Nat) : String :=
  if str = "" then ""
  else
    let words := str.splitOn " "
    if words.length ≤ numWords then str
    else String.intercalate " " (words.take numWords) ++ "..."

/-! ## Form snapshots

Each structure holds the values a `saveX` function reads from the DOM at
submit time. -/

/-- The budget form: hidden id, the scalar inputs, and the values of the
checked `.budget-category` checkboxes (in document order). -/
structure BudgetForm where
  id : String
  name : String
  amount : String
  currency : String
  start_date : String
  end_date : String
  recurrence : String
  budget_type : String
  checkedCategories : List String
deriving DecidableEq, Repr

/-- The category form (`category-id`, `category-name`, `category-icon`). -/
structure CategoryForm where
  id : String
  name : String
  icon : String
deriving DecidableEq, Repr

/-- The income-source form (`source-id`, `source-name`, `source-icon`). -/
structure IncomeSourceForm where
  id : String
  name : String
  icon : String
deriving DecidableEq, Repr

/-- The income form of the transactions page. -/
structure IncomeForm where
  id : String
  source : String
  amount : String
  currency : String
  date : String
  description : String
  status : String
deriving DecidableEq, Repr

/-- The expense form of the transactions page. -/
structure ExpenseForm where
  id : String
  category : String
  amount : String
  currency : String
  date : String
  description : String
  status : String
  budget : String
deriving DecidableEq, Repr

/-- The profile form of the profile page. -/
structure ProfileForm where
  first_name : String
  last_name : String
  email : String
  primary_currency : String
  avatar : String
deriving DecidableEq, Repr

/-! ## JSON payloads

Each payload is the object literal the script passes to `JSON.stringify`,
kept as an association list in the field order of the source. -/

/-- `saveBudget`'s payload: the seven scalar fields (with
`end_date: value || null`), plus `category_ids` (the checked checkbox
values) added exactly when `budget_type === 'category_filter'`. -/
def saveBudgetPayload (f : BudgetForm) : List (String × JVal) :=
  [("name", .str f.name),
   ("amount", .str f.amount),
   ("currency", .str f.currency),
   ("start_date", .str f.start_date),
   ("end_date", if f.end_date = "" then .null else .str f.end_date),
   ("recurrence_pattern", .str f.recurrence),
   ("budget_type", .str f.budget_type)] ++
  (if f.budget_type = "category_filter"
   then [("category_ids", .arr f.checkedCategories)]
   else [])

/-- `saveCategory`'s payload (`icon: value || null`). -/
def saveCategoryPayload (f : CategoryForm) : List (String × JVal) :=
  [("name", .str f.name),
   ("icon", if f.icon = "" then .null else .str f.icon)]

/-- `saveIncomeSource`'s payload (`icon: value || null`). -/
def saveIncomeSourcePayload (f : IncomeSourceForm) : List (String × JVal) :=
  [("name", .str f.name),
   ("icon", if f.icon = "" then .null else .str f.icon)]

/-- `saveIncome`'s payload (transactions page). -/
def saveIncomePayload (f : IncomeForm) : List (String × JVal) :=
  [("source_id", .str f.source),
   ("amount", .str f.amount),
   ("currency", .str f.currency),
   ("transaction_date", .str f.date),
   ("description", .str f.description),
   ("status", .str f.status)]

/-- `saveExpense`'s payload (transactions page, `budget_id: value || null`). -/
def saveExpensePayload (f : ExpenseForm) : List (String × JVal) :=
  [("category_id", .str f.category),
   ("amount", .str f.amount),
   ("currency", .str f.currency),
   ("transaction_date", .str f.date),
   ("description", .str f.description),
   ("status", .str f.status),
   ("budget_id", if f.budget = "" then .null else .str f.budget)]

/-- `saveProfile`'s payload (profile page). -/
def saveProfilePayload (f : ProfileForm) : List (String × JVal) :=
  [("first_name", .str f.first_name),
   ("last_name", .str f.last_name),
   ("email", .str f.email),
   ("primary_currency", .str f.primary_currency),
   ("avatar", .str f.avatar)]

/-! ## Current entities

The flat server records the detail-view fetches return and the
module-level current-entity variables hold. -/

/-- A budget record as the budgets page consumes it. -/
structure Budget where
  id : String
  name : String
  amount : String
  currency : String
  start_date : String
  end_date : Option String
  recurrence_pattern : String
  budget_type : String
  category_ids : Option (List String)
  status : String
deriving DecidableEq, Repr

/-- A category record as the categories page consumes it. -/
structure Category where
  id : String
  name : String
  icon : Option String
deriving DecidableEq, Repr

/-- An income-source record as the categories page consumes it. -/
structure IncomeSource where
  id : String
  name : String
  icon : Option String
deriving DecidableEq, Repr

/-- A transaction record (income or expense) as the transactions page
consumes it; `type` is the string "income" or "expense". -/
structure Transaction where
  id : String
  type : String
  name : String
  amount : String
  currency : String
  date : String
  status : String
  description : Option String
  source_id : String
  category_id : String
  budget_id : Option String
deriving DecidableEq, Repr

/-! ## Outgoing mutating requests

One constructor per mutating `fetch` in the embedded scripts, carrying the
data the script reads to build it. -/

/-- The mutating fetches: create/update (save), delete, toggle-status and
complete operations across the embedded pages. -/
inductive MutFetch where
  | saveBudget (f : BudgetForm)
  | toggleBudgetStatus (b : Budget)
  | deleteBudget (b : Budget)
  | saveCategory (f : CategoryForm)
  | deleteCategory (c : Category)
  | saveIncomeSource (f : IncomeSourceForm)
  | deleteIncomeSource (s : IncomeSource)
  | saveIncome (f : IncomeForm)
  | saveExpense (f : ExpenseForm)
  | markComplete (t : Transaction)
  | deleteTransaction (t : Transaction)
  | saveProfile (f : ProfileForm)
deriving DecidableEq, Repr

/-- The JSON content-type header the save operations send. -/
def contentTypeJson : String × String :=
  ("Content-Type", "application/json")

/-- Build the `fetch` request a mutating operation issues, given the
server-rendered `csrfToken` value.  Mirrors each call site: save
operations send a JSON body with `Content-Type` and `X-CSRFToken`
headers; delete/toggle/complete operations send only `X-CSRFToken`
(toggle-status also sends a JSON `{status}` body). -/
def buildMutRequest (csrf : String) : MutFetch → Request
  | .saveBudget f =>
      ⟨saveBudgetUrl f.id, "POST",
       [contentTypeJson, ("X-CSRFToken", csrf)], some (saveBudgetPayload f)⟩
  | .toggleBudgetStatus b =>
      ⟨"/api/budget/" ++ b.id ++ "/toggle-status/", "POST",
       [contentTypeJson, ("X-CSRFToken", csrf)],
       some [("status", .str (if b.status = "active" then "inactive" else "active"))]⟩
  | .deleteBudget b =>
      ⟨"/api/budget/" ++ b.id ++ "/delete/", "POST",
       [("X-CSRFToken", csrf)], none⟩
  | .saveCategory f =>
      ⟨saveCategoryUrl f.id, "POST",
       [contentTypeJson, ("X-CSRFToken", csrf)], some (saveCategoryPayload f)⟩
  | .deleteCategory c =>
      ⟨"/api/category/" ++ c.id ++ "/delete/", "POST",
       [("X-CSRFToken", csrf)], none⟩
  | .saveIncomeSource f =>
      ⟨saveIncomeSourceUrl f.id, "POST",
       [contentTypeJson, ("X-CSRFToken", csrf)], some (saveIncomeSourcePayload f)⟩
  | .deleteIncomeSource s =>
      ⟨"/api/income-source/" ++ s.id ++ "/delete/", "POST",
       [("X-CSRFToken", csrf)], none⟩
  | .saveIncome f =>
      ⟨saveIncomeUrl f.id, "POST",
       [contentTypeJson, ("X-CSRFToken", csrf)], some (saveIncomePayload f)⟩
  | .saveExpense f =>
      ⟨saveExpenseUrl f.id, "POST",
       [contentTypeJson, ("X-CSRFToken", csrf)], some (saveExpensePayload f)⟩
  | .markComplete t =>
      ⟨"/api/transaction/" ++ t.type ++ "/" ++ t.id ++ "/complete/", "POST",
       [("X-CSRFToken", csrf)], none⟩
  | .deleteTransaction t =>
      ⟨"/api/transaction/" ++ t.type ++ "/" ++ t.id ++ "/delete/", "POST",
       [("X-CSRFToken", csrf)], none⟩
  | .saveProfile f =>
      ⟨"/api/profile/update/", "POST",
       [contentTypeJson, ("X-CSRFToken", csrf)], some (saveProfilePayload f)⟩

/-! ## Responses and handlers

Every `fetch` chain in the scripts is
`fetch(...).then(r => r.json()).then(data => ...).catch(err => ...)`:
either the parsed response reaches the success/failure branches, or a
network error / JSON-parse error lands in the `.catch` block.  `NetResult`
is that dichotomy. -/

/-- Result of a `fetch` + `response.json()` chain: a parsed response, or a
rejection (network failure or JSON-parse failure) handled by `.catch`. -/
inductive NetResult (α : Type) where
  | ok (r : α)
  | failure
deriving DecidableEq, Repr

/-- A parsed response to a mutating POST: `{success, message?, error?}`. -/
structure MutResponse where
  success : Bool
  message : Option String
  error : Option String
deriving DecidableEq, Repr

/-- What a mutating operation's response handler does: toasts shown,
whether it schedules `window.location.reload()`, whether it re-queries the
transactions listing (`loadTransactions()`), and which modals it hides. -/
structure MutOutcome where
  toasts : List Toast
  reload : Bool
  refresh : Bool
  hiddenModals : List String
deriving DecidableEq, Repr

/-- The identity of a mutating operation, for response handling. -/
inductive MutOpKind where
  | saveBudget
  | toggleBudgetStatus
  | deleteBudget
  | saveCategory
  | deleteCategory
  | saveIncomeSource
  | deleteIncomeSource
  | saveIncome
  | saveExpense
  | markComplete
  | deleteTransaction
  | saveProfile
deriving DecidableEq, Repr

/-- The handler shape of the budgets/categories/profile pages:
on success, `showToast(data.message || okDflt, 'success')`, hide the given
modals, and schedule a page reload; on failure,
`showToast(data.error || errDflt, 'error')` and nothing else. -/
def reloadStyleHandle (okDflt errDflt : String) (modals : List String)
    (r : MutResponse) : MutOutcome :=
  if r.success then
    ⟨[⟨jsOr r.message okDflt, .success⟩], true, false, modals⟩
  else
    ⟨[⟨jsOr r.error errDflt, .error⟩], false, false, []⟩

/-- The handler shape of the transactions page: on success,
`showToast(data.message, 'success')`, hide the given modal, and call
`loadTransactions()`; on failure, `showToast(data.error, 'error')`. -/
def refreshStyleHandle (modal : String) (r : MutResponse) : MutOutcome :=
  if r.success then
    ⟨[⟨jsCoe r.message, .success⟩], false, true, [modal]⟩
  else
    ⟨[⟨jsCoe r.error, .error⟩], false, false, []⟩

/-- Run a mutating operation's response handling, `.catch` included: a
rejection shows the generic toast "An error occurred" and does nothing
else; a parsed response goes through the operation's two-branch handler. -/
def mutRun (op : MutOpKind) : NetResult MutResponse → MutOutcome
  | .failure => ⟨[⟨"An error occurred", .error⟩], false, false, []⟩
  | .ok r =>
    match op with
    | .saveBudget =>
        reloadStyleHandle "Budget saved successfully" "Error saving budget"
          ["budgetModal"] r
    | .toggleBudgetStatus =>
        reloadStyleHandle "Budget status updated" "Error updating status"
          ["budgetDetailModal"] r
    | .deleteBudget =>
        reloadStyleHandle "Budget deleted" "Error deleting budget"
          ["deleteBudgetModal"] r
    | .saveCategory =>
        reloadStyleHandle "Category saved successfully" "Error saving category"
          ["categoryModal"] r
    | .deleteCategory =>
        reloadStyleHandle "Category deleted" "Error deleting category"
          ["deleteCategoryModal"] r
    | .saveIncomeSource =>
        reloadStyleHandle "Income source saved successfully"
          "Error saving income source" ["incomeSourceModal"] r
    | .deleteIncomeSource =>
        reloadStyleHandle "Income source deleted" "Error deleting income source"
          ["deleteIncomeSourceModal"] r
    | .saveIncome => refreshStyleHandle "incomeModal" r
    | .saveExpense => refreshStyleHandle "expenseModal" r
    | .markComplete => refreshStyleHandle "detailModal" r
    | .deleteTransaction => refreshStyleHandle "deleteModal" r
    | .saveProfile =>
        reloadStyleHandle "Profile updated successfully" "Error updating profile"
          [] r

/-! ## Detail-view fetches -/

/-- A parsed response to a detail-view GET: `{success, data?, error?}`
(the scripts never read `error` here, but the server may send it). -/
structure DetailResponse (α : Type) where
  success : Bool
  data : Option α
  error : Option String
deriving DecidableEq, Repr

/-- The four detail-view fetches. -/
inductive ViewOp where
  | budget
  | category
  | incomeSource
  | transaction
deriving DecidableEq, Repr

/-- The fixed message each detail-view fetch shows on any failure
(business failure or rejection). -/
def viewErrorMsg : ViewOp → String
  | .budget => "Error loading budget"
  | .category => "Error loading category"
  | .incomeSource => "Error loading income source"
  | .transaction => "Error loading transaction"

/-- The detail modal each view opens on success. -/
def viewDetailModal : ViewOp → String
  | .budget => "budgetDetailModal"
  | .category => "categoryDetailModal"
  | .incomeSource => "incomeSourceDetailModal"
  | .transaction => "detailModal"

/-- What a detail-view fetch leaves behind: the module-level
current-entity reference afterwards, toasts shown, and modals opened. -/
structure ViewOutcome (α : Type) where
  current : Option α
  toasts : List Toast
  shownModals : List String
deriving DecidableEq, Repr

/-- Run a detail-view fetch chain from a prior current-entity value:
on `{success:true}` the current-entity variable is assigned `data.data`
and the detail modal is shown; on `{success:false}` or a rejection, the
fixed error toast is shown and the reference is left as it was. -/
def viewRun (op : ViewOp) (prior : Option α) :
    NetResult (DetailResponse α) → ViewOutcome α
  | .ok r =>
    if r.success then ⟨r.data, [], [viewDetailModal op]⟩
    else ⟨prior, [⟨viewErrorMsg op, .error⟩], []⟩
  | .failure => ⟨prior, [⟨viewErrorMsg op, .error⟩], []⟩

/-! ## The transactions listing re-query -/

/-- The paginated listing JSON `GET /transactions/?...&ajax=1` returns. -/
structure TxPage where
  total_count : Nat
  transactions : List Transaction
  page : Nat
  total_pages : Nat
  has_previous : Bool
  has_next : Bool
deriving DecidableEq, Repr

/-- What `loadTransactions` leaves behind: the page data applied to the
table (if any) and toasts shown. -/
structure ListingOutcome where
  tableUpdate : Option TxPage
  toasts : List Toast
deriving DecidableEq, Repr

/-- Run `loadTransactions`'s response handling: on success the table is
rebuilt from the data; on a rejection the error is only logged to the
console — no toast is shown. -/
def loadTransactionsRun : NetResult TxPage → ListingOutcome
  | .ok d => ⟨some d, []⟩
  | .failure => ⟨none, []⟩

/-! ## Guarded operations on the current entity

Each page keeps a module-level current-entity variable (`currentBudget`,
`currentCategory`, `currentIncomeSource`, `currentTransaction`) set by the
detail-view fetch.  Every operation acting on it begins with
`if (!currentX) return;`. -/

/-- The module-level current-entity variables of the embedded pages. -/
structure PageState where
  currentBudget : Option Budget
  currentCategory : Option Category
  currentIncomeSource : Option IncomeSource
  currentTransaction : Option Transaction
deriving DecidableEq, Repr

/-- A synchronous DOM effect a guarded operation performs. -/
inductive DomWrite where
  | setValue (elemId value : String)
  | setText (elemId value : String)
  | toggleCategoryFilters
  | syncCategoryChecks (ids : Option (List String))
deriving DecidableEq, Repr

/-- Everything a guarded operation does synchronously: requests issued,
DOM writes, and modals shown/hidden. -/
structure GuardOutcome where
  requests : List Request
  domWrites : List DomWrite
  shownModals : List String
  hiddenModals : List String
deriving DecidableEq, Repr

/-- The outcome of an operation that does nothing at all. -/
def GuardOutcome.empty : GuardOutcome :=
  ⟨[], [], [], []⟩

/-- The operations that act on a current-entity reference. -/
inductive GuardedOp where
  | openEditBudgetModal
  | toggleBudgetStatus
  | openDeleteBudgetModal
  | confirmDeleteBudget
  | openEditCategoryModal
  | openDeleteCategoryModal
  | confirmDeleteCategory
  | openEditIncomeSourceModal
  | openDeleteIncomeSourceModal
  | confirmDeleteIncomeSource
  | openEditTransactionModal
  | markComplete
  | openDeleteTransactionModal
  | confirmDeleteTransaction
deriving DecidableEq, Repr

/-- The current-entity variable a guarded operation reads, as a guard:
`true` exactly when that variable is null. -/
def guardNull (op : GuardedOp) (st : PageState) : Bool :=
  match op with
  | .openEditBudgetModal | .toggleBudgetStatus
  | .openDeleteBudgetModal | .confirmDeleteBudget =>
      st.currentBudget.isNone
  | .openEditCategoryModal | .openDeleteCategoryModal
  | .confirmDeleteCategory =>
      st.currentCategory.isNone
  | .openEditIncomeSourceModal | .openDeleteIncomeSourceModal
  | .confirmDeleteIncomeSource =>
      st.currentIncomeSource.isNone
  | .openEditTransactionModal | .markComplete
  | .openDeleteTransactionModal | .confirmDeleteTransaction =>
      st.currentTransaction.isNone

/-- `openEditModal` of the transactions page, for a non-null current
transaction: branch on its type and fill the matching form. -/
def editTransactionOutcome (t : Transaction) : GuardOutcome :=
  if t.type = "income" then
    ⟨[],
     [.setValue "income-id" t.id,
      .setValue "income-source" t.source_id,
      .setValue "income-amount" t.amount,
      .setValue "income-currency" t.currency,
      .setValue "income-date" t.date,
      .setValue "income-description" (jsOr t.description ""),
      .setValue "income-status" t.status,
      .setText "incomeModalLabel" "Edit Income"],
     ["incomeModal"], ["detailModal"]⟩
  else
    ⟨[],
     [.setValue "expense-id" t.id,
      .setValue "expense-category" t.category_id,
      .setValue "expense-amount" t.amount,
      .setValue "expense-currency" t.currency,
      .setValue "expense-date" t.date,
      .setValue "expense-description" (jsOr t.description ""),
      .setValue "expense-status" t.status,
      .setValue "expense-budget" (jsOr t.budget_id ""),
      .setText "expenseModalLabel" "Edit Expense"],
     ["expenseModal"], ["detailModal"]⟩

/-- Run a guarded operation against the page state: if the operation's
current-entity variable is null it returns immediately (no request, no
DOM write, no modal change); otherwise it performs the operation's body
on the current entity. -/
def guardedRun (op : GuardedOp) (csrf : String) (st : PageState) :
    GuardOutcome :=
  match op with
  | .openEditBudgetModal =>
    match st.currentBudget with
    | none => .empty
    | some b =>
        ⟨[],
         [.setValue "budget-id" b.id,
          .setValue "budget-name" b.name,
          .setValue "budget-amount" b.amount,
          .setValue "budget-currency" b.currency,
          .setValue "budget-start-date" b.start_date,
          .setValue "budget-end-date" (jsOr b.end_date ""),
          .setValue "budget-recurrence" b.recurrence_pattern,
          .setValue "budget-type" b.budget_type,
          .toggleCategoryFilters,
          .syncCategoryChecks b.category_ids,
          .setText "budgetModalLabel" "Edit Budget"],
         ["budgetModal"], ["budgetDetailModal"]⟩
  | .toggleBudgetStatus =>
    match st.currentBudget with
    | none => .empty
    | some b => ⟨[buildMutRequest csrf (.toggleBudgetStatus b)], [], [], []⟩
  | .openDeleteBudgetModal =>
    match st.currentBudget with
    | none => .empty
    | some b =>
        ⟨[], [.setText "delete-budget-name" b.name],
         ["deleteBudgetModal"], ["budgetDetailModal"]⟩
  | .confirmDeleteBudget =>
    match st.currentBudget with
    | none => .empty
    | some b => ⟨[buildMutRequest csrf (.deleteBudget b)], [], [], []⟩
  | .openEditCategoryModal =>
    match st.currentCategory with
    | none => .empty
    | some c =>
        ⟨[],
         [.setValue "category-id" c.id,
          .setValue "category-name" c.name,
          .setValue "category-icon" (jsOr c.icon ""),
          .setText "categoryModalLabel" "Edit Category"],
         ["categoryModal"], ["categoryDetailModal"]⟩
  | .openDeleteCategoryModal =>
    match st.currentCategory with
    | none => .empty
    | some c =>
        ⟨[], [.setText "delete-category-name" c.name],
         ["deleteCategoryModal"], ["categoryDetailModal"]⟩
  | .confirmDeleteCategory =>
    match st.currentCategory with
    | none => .empty
    | some c => ⟨[buildMutRequest csrf (.deleteCategory c)], [], [], []⟩
  | .openEditIncomeSourceModal =>
    match st.currentIncomeSource with
    | none => .empty
    | some s =>
        ⟨[],
         [.setValue "source-id" s.id,
          .setValue "source-name" s.name,
          .setValue "source-icon" (jsOr s.icon ""),
          .setText "incomeSourceModalLabel" "Edit Income Source"],
         ["incomeSourceModal"], ["incomeSourceDetailModal"]⟩
  | .openDeleteIncomeSourceModal =>
    match st.currentIncomeSource with
    | none => .empty
    | some s =>
        ⟨[], [.setText "delete-source-name" s.name],
         ["deleteIncomeSourceModal"], ["incomeSourceDetailModal"]⟩
  | .confirmDeleteIncomeSource =>
    match st.currentIncomeSource with
    | none => .empty
    | some s => ⟨[buildMutRequest csrf (.deleteIncomeSource s)], [], [], []⟩
  | .openEditTransactionModal =>
    match st.currentTransaction with
    | none => .empty
    | some t => editTransactionOutcome t
  | .markComplete =>
    match st.currentTransaction with
    | none => .empty
    | some t => ⟨[buildMutRequest csrf (.markComplete t)], [], [], []⟩
  | .openDeleteTransactionModal =>
    match st.currentTransaction with
    | none => .empty
    | some t =>
        ⟨[], [.setText "delete-transaction-name" t.name],
         ["deleteModal"], ["detailModal"]⟩
  | .confirmDeleteTransaction =>
    match st.currentTransaction with
    | none => .empty
    | some t => ⟨[buildMutRequest csrf (.deleteTransaction t)], [], [], []⟩

/-! ## The search-input debounce of the transactions page

`initFilters` registers, on every `input` event of the search box:
`clearTimeout(searchTimeout); searchTimeout = setTimeout(() => {
currentPage = 1; loadTransactions(); }, 400);`.  We model absolute event
times in milliseconds: a scheduled timer with deadline `e` fires before an
event at time `t ≥ e`; an input event cancels whatever is still pending
and schedules a new deadline 400ms out. -/

/-- The debounce delay of the search input, in milliseconds. -/
def searchDelay : Nat := 400

/-- State of the transactions page relevant to the search debounce:
the pending timer deadline (if any), the module-level `currentPage`, and
the trace of listing re-queries fired so far (the page each requested). -/
structure SearchState where
  pending : Option Nat
  currentPage : Nat
  queries : List Nat
deriving DecidableEq, Repr

/-- The timer callback: set `currentPage = 1`, then `loadTransactions()`
(which requests the now-current page, 1); the timer is spent. -/
def fireSearch (st : SearchState) : SearchState :=
  ⟨none, 1, st.queries ++ [1]⟩

/-- An `input` event at time `t`: a previously scheduled timer whose
deadline already passed has fired; the handler then cancels any pending
timer (`clearTimeout`) and schedules a new one for `t + 400`. -/
def searchInput (st : SearchState) (t : Nat) : SearchState :=
  let st' :=
    match st.pending with
    | some e => if e ≤ t then fireSearch st else st
    | none => st
  ⟨some (t + searchDelay), st'.currentPage, st'.queries⟩

/-- Feed a time-ordered list of `input` events to the page. -/
def searchRun : SearchState → List Nat → SearchState
  | st, [] => st
  | st, t :: ts => searchRun (searchInput st t) ts

/-- Let time run out after the last event: a still-pending timer fires. -/
def searchFlush (st : SearchState) : SearchState :=
  match st.pending with
  | some _ => fireSearch st
  | none => st

/-- The page state on load: no timer pending, page 1, no queries yet. -/
def searchInit : SearchState :=
  ⟨none, 1, []⟩

/-- `burstFrom p ts`: the event times `ts` follow time `p` in order, each
strictly less than its predecessor plus the debounce delay. -/
def burstFrom : Nat → List Nat → Bool
  | _, [] => true
  | p, t :: ts => decide (p ≤ t) && decide (t < p + searchDelay) && burstFrom t ts

/-! ## Theorems -/

/-- C10: `truncateWords s n` returns the empty string when `s` is falsy
(the empty string); returns `s` unchanged when `s` has at most `n`
space-separated words; and otherwise returns the first `n` words joined by
single spaces followed by "...". -/
theorem C10_truncateWords_cases (s : String) (n : Nat) :
    if s = "" then truncateWords s n = ""
    else if (s.splitOn " ").length ≤ n then truncateWords s n = s
    else truncateWords s n
        = String.intercalate " " ((s.splitOn " ").take n) ++ "..." := by
  by_cases h : s = ""
  · simp [truncateWords, h]
  · by_cases h2 : (s.splitOn " ").length ≤ n <;> simp [truncateWords, h, h2]

/-- C5 counterexample: for the income save operation there is no single
entity segment `e` making both halves of the claimed pattern true: the
create URL forces `e = "income"`, but then the update URL for id "5" is
not `/api/income/5/update/`; the update URL forces
`e = "transaction/income"`, but then the create URL is not
`/api/transaction/income/create/`. -/
theorem C5_counterexample :
    ¬ ∃ e : String,
      saveIncomeUrl "" = "/api/" ++ e ++ "/create/" ∧
      saveIncomeUrl "5" = "/api/" ++ e ++ "/5/update/" := by
  rintro ⟨e, h1, h2⟩
  have hc : saveIncomeUrl "" = "/api/income/create/" := by decide
  have hu : saveIncomeUrl "5" = "/api/transaction/income/5/update/" := by decide
  rw [hc] at h1
  rw [hu] at h2
  have l1 := congrArg String.length h1
  have l2 := congrArg String.length h2
  have e1 : ("/api/income/create/" : String).length = 19 := by decide
  have e2 : ("/api/transaction/income/5/update/" : String).length = 33 := by decide
  have e3 : ("/api/" : String).length = 5 := by decide
  have e4 : ("/create/" : String).length = 8 := by decide
  have e5 : ("/5/update/" : String).length = 10 := by decide
  rw [e1, String.length_append, String.length_append, e3, e4] at l1
  rw [e2, String.length_append, String.length_append, e3, e5] at l2
  omega

/-- C5 amended: each save operation selects its endpoint by the hidden id
field — the create endpoint exactly when the id is empty, the update
endpoint containing that id otherwise.  For budget, category and
income-source both endpoints share one entity segment
(`/api/<entity>/create/`, `/api/<entity>/<id>/update/`); for income and
expense the create endpoint is `/api/income/create/` (resp. expense)
while the update endpoint is `/api/transaction/income/<id>/update/`
(resp. expense). -/
theorem C5_amended_url_selection (id : String) :
    (id = "" →
      saveBudgetUrl id = "/api/budget/create/" ∧
      saveCategoryUrl id = "/api/category/create/" ∧
      saveIncomeSourceUrl id = "/api/income-source/create/" ∧
      saveIncomeUrl id = "/api/income/create/" ∧
      saveExpenseUrl id = "/api/expense/create/") ∧
    (id ≠ "" →
      saveBudgetUrl id = "/api/budget/" ++ id ++ "/update/" ∧
      saveCategoryUrl id = "/api/category/" ++ id ++ "/update/" ∧
      saveIncomeSourceUrl id = "/api/income-source/" ++ id ++ "/update/" ∧
      saveIncomeUrl id = "/api/transaction/income/" ++ id ++ "/update/" ∧
      saveExpenseUrl id = "/api/transaction/expense/" ++ id ++ "/update/") := by
  constructor <;> intro h <;>
    simp [saveBudgetUrl, saveCategoryUrl, saveIncomeSourceUrl,
      saveIncomeUrl, saveExpenseUrl, h]

/-- C5 amended, witnessed at the empty id and at id "7". -/
theorem C5_amended_url_selection_witness :
    saveBudgetUrl "" = "/api/budget/create/" ∧
    saveIncomeUrl "7" = "/api/transaction/income/7/update/" :=
  ⟨((C5_amended_url_selection "").1 rfl).1,
   ((C5_amended_url_selection "7").2 (by decide)).2.2.2.1⟩

/-- C2: every mutating request the embedded scripts issue is a POST whose
header list carries `X-CSRFToken` bound to the server-rendered
`csrfToken` value. -/
theorem C2_csrf_header_on_mutating_requests (csrf : String) (m : MutFetch) :
    (buildMutRequest csrf m).method = "POST" ∧
    ("X-CSRFToken", csrf) ∈ (buildMutRequest csrf m).headers := by
  cases m <;> simp [buildMutRequest, contentTypeJson]

/-- C1: for every mutating operation, a parsed response with
`success = true` produces exactly one success toast and schedules a page
reload or a listing refresh, and a parsed response with `success = false`
produces exactly one error toast and schedules neither. -/
theorem C1_two_branch_result_handling (op : MutOpKind) (r : MutResponse) :
    (mutRun op (.ok r)).toasts.map Toast.kind
        = [if r.success then ToastKind.success else ToastKind.error] ∧
    ((mutRun op (.ok r)).reload || (mutRun op (.ok r)).refresh) = r.success := by
  rcases r with ⟨s, msg, err⟩
  cases s <;> cases op <;>
    simp [mutRun, reloadStyleHandle, refreshStyleHandle]

/-- C3 counterexample: the budget detail-view fetch catches a network or
parse rejection, but the toast it shows reads "Error loading budget",
not the generic "An error occurred". -/
theorem C3_counterexample :
    (viewRun ViewOp.budget (none : Option Budget) NetResult.failure).toasts
        = [⟨"Error loading budget", ToastKind.error⟩] ∧
    "Error loading budget" ≠ "An error occurred" :=
  ⟨rfl, by decide⟩

/-- C3 amended: every network or JSON-parse rejection is caught.  The
mutating operations report it via the generic error toast
"An error occurred" and schedule no reload or refresh; the detail-view
fetches instead report their fixed "Error loading ..." message and leave
the current-entity reference unchanged; the transactions-listing re-query
only logs to the console and shows no toast. -/
theorem C3_amended_catch_handling :
    (∀ op : MutOpKind,
      (mutRun op NetResult.failure).toasts
          = [⟨"An error occurred", ToastKind.error⟩] ∧
      (mutRun op NetResult.failure).reload = false ∧
      (mutRun op NetResult.failure).refresh = false) ∧
    (∀ (α : Type) (op : ViewOp) (prior : Option α),
      (viewRun op prior NetResult.failure).toasts
          = [⟨viewErrorMsg op, ToastKind.error⟩] ∧
      (viewRun op prior NetResult.failure).current = prior) ∧
    (loadTransactionsRun NetResult.failure).toasts = [] := by
  refine ⟨fun op => ?_, fun α op prior => ?_, rfl⟩
  · cases op <;> simp [mutRun]
  · exact ⟨rfl, rfl⟩

/-- C4 counterexample: on a `{success:false}` budget detail response whose
server-supplied error message is "Budget quota exceeded", the toast shown
is the fixed "Error loading budget" — the server's message is not
displayed. -/
theorem C4_counterexample :
    (viewRun ViewOp.budget (none : Option Budget)
        (NetResult.ok ⟨false, none, some "Budget quota exceeded"⟩)).toasts
        = [⟨"Error loading budget", ToastKind.error⟩] ∧
    "Error loading budget" ≠ "Budget quota exceeded" :=
  ⟨rfl, by decide⟩

/-- C4 amended: for every mutating operation, when the server responds
with `success = false` and a non-empty `error` string, that string is
displayed verbatim in the error toast; the detail-view fetches instead
show a fixed "Error loading ..." message, ignoring the server-supplied
error. -/
theorem C4_amended_verbatim_error (op : MutOpKind) (r : MutResponse)
    (hs : r.success = false) (e : String) (he : r.error = some e)
    (hne : e ≠ "") :
    (mutRun op (.ok r)).toasts = [⟨e, ToastKind.error⟩] := by
  rcases r with ⟨s, msg, err⟩
  cases hs
  cases he
  cases op <;>
    simp [mutRun, reloadStyleHandle, refreshStyleHandle, jsOr, jsCoe, hne]

/-- C4 amended, witnessed on `saveBudget` with the server error
"Amount must be positive". -/
theorem C4_amended_verbatim_error_witness :
    (mutRun MutOpKind.saveBudget
        (.ok ⟨false, none, some "Amount must be positive"⟩)).toasts
      = [⟨"Amount must be positive", ToastKind.error⟩] :=
  C4_amended_verbatim_error MutOpKind.saveBudget
    ⟨false, none, some "Amount must be positive"⟩ rfl
    "Amount must be positive" rfl (by decide)

/-- C6: submitting the budget form serializes exactly the keys `name`,
`amount`, `currency`, `start_date`, `end_date` (null when the input is
blank), `recurrence_pattern` and `budget_type`, plus `category_ids` (the
checked category checkbox values) exactly when `budget_type` is
"category_filter"; each key maps to the corresponding form value. -/
theorem C6_budget_payload_shape (f : BudgetForm) :
    (saveBudgetPayload f).map Prod.fst
      = ["name", "amount", "currency", "start_date", "end_date",
         "recurrence_pattern", "budget_type"] ++
        (if f.budget_type = "category_filter" then ["category_ids"] else []) ∧
    List.lookup "name" (saveBudgetPayload f) = some (.str f.name) ∧
    List.lookup "amount" (saveBudgetPayload f) = some (.str f.amount) ∧
    List.lookup "currency" (saveBudgetPayload f) = some (.str f.currency) ∧
    List.lookup "start_date" (saveBudgetPayload f) = some (.str f.start_date) ∧
    List.lookup "end_date" (saveBudgetPayload f)
      = some (if f.end_date = "" then JVal.null else .str f.end_date) ∧
    List.lookup "recurrence_pattern" (saveBudgetPayload f)
      = some (.str f.recurrence) ∧
    List.lookup "budget_type" (saveBudgetPayload f)
      = some (.str f.budget_type) ∧
    List.lookup "category_ids" (saveBudgetPayload f)
      = (if f.budget_type = "category_filter"
         then some (JVal.arr f.checkedCategories) else none) := by
  by_cases h : f.budget_type = "category_filter" <;>
    simp [saveBudgetPayload, h, List.lookup]

/-- C8: on a successful detail-view fetch, the page's module-level
current-entity reference is overwritten with the fetched entity data,
whatever it held before. -/
theorem C8_view_overwrites_current {α : Type} (op : ViewOp)
    (prior : Option α) (r : DetailResponse α) (h : r.success = true) :
    (viewRun op prior (.ok r)).current = r.data := by
  simp [viewRun, h]

/-- C8, witnessed on the budget view with a prior value in place. -/
theorem C8_view_overwrites_current_witness :
    (viewRun ViewOp.budget (some 1)
        (.ok (⟨true, some 2, none⟩ : DetailResponse Nat))).current = some 2 :=
  C8_view_overwrites_current ViewOp.budget (some 1) ⟨true, some 2, none⟩ rfl

/-- C9: every operation that acts on the currently selected entity is a
no-op — no request, no DOM write, no modal change — when the relevant
current-entity reference is null. -/
theorem C9_null_guard_noop (op : GuardedOp) (csrf : String)
    (st : PageState) (h : guardNull op st = true) :
    guardedRun op csrf st = GuardOutcome.empty := by
  rcases st with ⟨b, c, s, t⟩
  cases op <;> simp_all [guardNull, guardedRun, Option.isNone_iff_eq_none]

/-- C9, witnessed on `markComplete` with every current entity null. -/
theorem C9_null_guard_noop_witness :
    guardedRun GuardedOp.markComplete "token" ⟨none, none, none, none⟩
      = GuardOutcome.empty :=
  C9_null_guard_noop GuardedOp.markComplete "token"
    ⟨none, none, none, none⟩ rfl

/-- Helper for the debounce claim: while the incoming events stay within
the debounce window of their predecessor, no timer fires (the query trace
is unchanged) and a timer scheduled by the last event is still pending. -/
theorem searchRun_burst_aux (ts : List Nat) :
    ∀ (p : Nat) (st : SearchState),
      burstFrom p ts = true → st.pending = some (p + searchDelay) →
      (searchRun st ts).queries = st.queries ∧
      ∃ q, (searchRun st ts).pending = some (q + searchDelay) := by
  induction ts with
  | nil =>
    intro p st _ hp
    exact ⟨rfl, p, hp⟩
  | cons t ts ih =>
    intro p st hb hp
    simp only [burstFrom, Bool.and_eq_true, decide_eq_true_eq] at hb
    obtain ⟨⟨hpt, hlt⟩, hb'⟩ := hb
    have hnf : ¬ (p + searchDelay ≤ t) := by omega
    have hstep : searchInput st t
        = ⟨some (t + searchDelay), st.currentPage, st.queries⟩ := by
      simp [searchInput, hp, hnf]
    have := ih t ⟨some (t + searchDelay), st.currentPage, st.queries⟩ hb' rfl
    simpa [searchRun, hstep] using this

/-- C7: on the transactions page, each search-input event cancels the
pending re-query timer and schedules a new one a fixed delay out, so a
burst of input events each arriving within the delay of its predecessor
fires exactly one listing re-query, and that re-query requests page 1. -/
theorem C7_debounce_single_query (t : Nat) (ts : List Nat)
    (hb : burstFrom t ts = true) :
    (searchFlush (searchRun searchInit (t :: ts))).queries = [1] := by
  have h1 : searchRun searchInit (t :: ts)
      = searchRun ⟨some (t + searchDelay), 1, []⟩ ts := by
    simp [searchRun, searchInput, searchInit]
  obtain ⟨hq, q, hp⟩ :=
    searchRun_burst_aux ts t ⟨some (t + searchDelay), 1, []⟩ hb rfl
  rw [h1]
  rcases hx : searchRun ⟨some (t + searchDelay), 1, []⟩ ts with ⟨pend, cp, qs⟩
  rw [hx] at hq hp
  simp only at hq hp
  subst hq
  subst hp
  simp [searchFlush, fireSearch]

/-- C7, witnessed on the burst of input events at 0ms, 150ms and 450ms
(each within 400ms of its predecessor). -/
theorem C7_debounce_single_query_witness :
    burstFrom 0 [150, 450] = true ∧
    (searchFlush (searchRun searchInit (0 :: [150, 450]))).queries = [1] :=
  ⟨by decide, C7_debounce_single_query 0 [150, 450] (by decide)⟩

end ExpenseTracker
